import Mathlib

/-!
Shallow embedding of the conversation/report orchestration core of the
mental-health-chatbot repository.

Sources embedded:
- src/src/services/HuggingFaceService.ts  (generateContentFromHF)
- src/src/context/ConversationContext.tsx (ConversationProvider: greeting
  effect, sendMessage, generateReport, downloadReport)

Conventions of the embedding:
- JavaScript strings are Lean String; the platform string helpers used by
  the code (trim, replace-first-occurrence, case-insensitive prefix match)
  are modelled explicitly below.
- Effectful inputs (uuid values, timestamps, the outcome of the fetch call,
  the platform JSON.parse) are passed as explicit parameters, so every
  operation is a pure state transformer.
-/

namespace MHC

/-- Model of JavaScript String.prototype.trim on the character list of a
string: drop whitespace from both ends (Char.isWhitespace stands in for the
JS whitespace class). -/
def trimChars (l : List Char) : List Char :=
  ((l.dropWhile Char.isWhitespace).reverse.dropWhile Char.isWhitespace).reverse

/-- Model of JavaScript String.prototype.trim. -/
def jsTrim (s : String) : String := ⟨trimChars s.data⟩

/-- Modelled from the spec: the `sender` field of a Message is one of
`user`, `bot` (src/src/types is not part of the provided sources; spec 3). -/
inductive Sender where
  | user
  | bot
deriving DecidableEq

/-- Role tag of a turn sent to the inference backend
(HuggingFaceService.ts MessageInput.role: "user" | "model"). -/
inductive Role where
  | user
  | model
deriving DecidableEq

/-- HuggingFaceService.ts MessageInput: a role-tagged turn. -/
structure MessageInput where
  role : Role
  content : String
deriving DecidableEq

/-- Modelled from the spec: a Message of the transcript (spec 3; the
types module itself is not among the provided sources, its shape is fixed
by the uses in ConversationContext.tsx). -/
structure Message where
  id : String
  content : String
  sender : Sender
  timestamp : String
deriving DecidableEq

/-- Modelled from the spec: the Report entity (spec 3 and the JSON schema
of spec 6; the types module itself is not among the provided sources).
Scores are integers in the model; the code stores whatever number the
parsed JSON carries. -/
structure Report where
  observedPatterns : List String
  tentativeConditions : List String
  moodScore : Int
  sentimentScore : Int
  keyQuotes : List String
  recommendations : List String
  analysisDate : String
deriving DecidableEq

/-- HuggingFaceService.ts line 18: the content of the last user-role turn,
`messages.filter((msg) => msg.role === "user").pop()?.content`. -/
def lastUserContent (messages : List MessageInput) : Option String :=
  ((messages.filter fun msg => msg.role = Role.user).getLast?).map fun msg => msg.content

/-- JavaScript string coercion of a possibly-undefined value: `undefined`
prints as "undefined" when concatenated into a string. -/
def jsDisplay : Option String → String
  | some c => c
  | none => "undefined"

/-- HuggingFaceService.ts lines 15-20: the prompt actually sent to the
Hugging Face endpoint.  Note that the `systemPrompt` argument of
generateContentFromHF is not used anywhere in its body. -/
def hfPrompt (messages : List MessageInput) ( systemPrompt : String) : String :=
  String.intercalate "\n"
    ["You are a supportive and empathetic mental health chatbot. Respond naturally and briefly to the user\x27s message.",
     "",
     "User: " ++ jsDisplay (lastUserContent messages),
     "Assistant:"]

/-- Fixed generation parameters of the request body
(HuggingFaceService.ts lines 30-34); temperature 0.7 is kept in tenths. -/
structure HFParameters where
  maxNewTokens : Nat
  temperatureTenths : Nat
  returnFullText : Bool
deriving DecidableEq

/-- The request body sent by generateContentFromHF
(HuggingFaceService.ts lines 28-35). -/
structure HFRequest where
  inputs : String
  parameters : HFParameters
deriving DecidableEq

/-- HuggingFaceService.ts lines 22-36: the request built from the call
arguments.  Only `inputs` varies; `systemPrompt` is unused. -/
def hfRequest (messages : List MessageInput) ( systemPrompt : String) : HFRequest :=
  { inputs := hfPrompt messages systemPrompt,
    parameters := { maxNewTokens := 150, temperatureTenths := 7, returnFullText := false } }

/-- Shape of the JSON payload of a 2xx backend response, as far as
generateContentFromHF inspects it (lines 49-55): either a JSON array whose
first element may carry `generated_text`, or a JSON object that may carry
`generated_text`. -/
inductive HFData where
  | jsonArray (firstGeneratedText : Option String)
  | jsonObject (generatedText : Option String)
deriving DecidableEq

/-- HuggingFaceService.ts lines 49-55: extract the generated text.  The
JS truthiness tests mean an empty `generated_text` falls through to the
"Sorry" branch, hence the result, when present, is non-empty. -/
def extractGeneratedText : HFData → Option String
  | HFData.jsonArray f =>
      match f with
      | some t => if t = "" then none else some t
      | none => none
  | HFData.jsonObject g =>
      match g with
      | some t => if t = "" then none else some t
      | none => none

/-- Model of JavaScript String.prototype.includes: does `pat` occur as a
contiguous run inside `l`. -/
def hasOcc (pat : List Char) : List Char → Bool
  | [] => pat.isEmpty
  | c :: rest => pat.isPrefixOf (c :: rest) || hasOcc pat rest

/-- Remove the first occurrence of `pat` from `l`, as JavaScript
String.prototype.replace(pat, "") with a string pattern does. -/
def removeFirstOcc : List Char → List Char → List Char
  | [], _ => []
  | c :: rest, pat =>
      if pat.isPrefixOf (c :: rest) then (c :: rest).drop pat.length
      else c :: removeFirstOcc rest pat

/-- Case-insensitive "starts with" (`pre` is given in lower case), the
effect of anchored case-insensitive regex matching on ASCII literals. -/
def ciHasLead (s pre : List Char) : Bool :=
  (pre.map Char.toLower).isPrefixOf (s.map Char.toLower)

/-- HuggingFaceService.ts lines 64-66, on the character list: the anchored
case-insensitive replacement removing a leading "Assistant:" or
"Let me respond naturally to that" (with optional trailing dot, tried
greedily, like the regex alternation). -/
def stripLeadingChars (l : List Char) : List Char :=
  if ciHasLead l "assistant:".data then l.drop 10
  else if ciHasLead l "let me respond naturally to that.".data then l.drop 33
  else if ciHasLead l "let me respond naturally to that".data then l.drop 32
  else l

/-- HuggingFaceService.ts lines 64-66: the artifact-stripping replace. -/
def stripLeadingArtifact (s : String) : String := ⟨stripLeadingChars s.data⟩

/-- HuggingFaceService.ts lines 57-70: post-processing of a successfully
extracted generated text: optional removal of an echoed prompt, artifact
stripping, and the non-empty fallback. -/
def hfCleanup (prompt g0 : String) : String :=
  let g1 := if hasOcc prompt.data g0.data
            then jsTrim ⟨removeFirstOcc g0.data prompt.data⟩ else g0
  let g2 := jsTrim (stripLeadingArtifact g1)
  if g2 = "" then "I\x27m glad to hear from you! How can I help you today?" else g2

/-- HuggingFaceService.ts lines 44-70: what generateContentFromHF returns
once a 2xx response body `data` is in hand. -/
def hfPost (prompt : String) (data : HFData) : String :=
  match extractGeneratedText data with
  | none => "Sorry, I couldn\x27t generate a response."
  | some g0 => hfCleanup prompt g0

/-- HuggingFaceService.ts generateContentFromHF on the non-throwing path:
builds the prompt from the turn list (ignoring `systemPrompt`) and
post-processes the response body. The throwing path (non-2xx response,
line 41) is represented by `HFOutcome.failure` at the call sites. -/
def generateContentFromHF (messages : List MessageInput) ( systemPrompt : String)
    (data : HFData) : String :=
  hfPost (hfPrompt messages systemPrompt) data

/-- Outcome of one awaited generateContentFromHF call as seen by the
orchestrator: the call either throws or returns a response body. -/
inductive HFOutcome where
  | failure
  | success (data : HFData)
deriving DecidableEq

/-- ConversationContext.tsx lines 42-48: the provider state.
`greetingPending` models a scheduled-but-not-yet-fired greeting timeout
(line 59).  The `messagesRef` mirror always holds the latest messages in
the sequential model, so it is not duplicated here. -/
structure ConvState where
  messages : List Message
  isLoading : Bool
  report : Option Report
  isReportGenerating : Bool
  conversationStarted : Bool
  greetingPending : Bool
  error : Option String
deriving DecidableEq

/-- The initial provider state (all useState initialisers). -/
def initState : ConvState :=
  { messages := [], isLoading := false, report := none,
    isReportGenerating := false, conversationStarted := false,
    greetingPending := false, error := none }

/-- ConversationContext.tsx line 62: the greeting content. -/
def greetingText : String := "Hi there! How are you feeling today?"

/-- ConversationContext.tsx line 101: the chat system prompt. -/
def chatSystemPrompt : String :=
  "You are a supportive and empathetic mental health chatbot. Your responses should be natural, brief (2-3 sentences), and focused on the user\x27s immediate message. Offer relevant suggestions when appropriate. Never repeat the prompt or conversation format in your response."

/-- ConversationContext.tsx line 122: the chat-failure banner text. -/
def retryErrorText : String := "Failed to get response. Please try again."

/-- ConversationContext.tsx lines 127-128: the bot apology content. -/
def apologyText : String :=
  "I\x27m sorry, I\x27m having trouble responding right now. Could you try again?"

/-- ConversationContext.tsx line 186: banner text of the parse-failure
branch of generateReport. -/
def parseFailErrorText : String := "Failed to generate a valid report. Please try again."

/-- ConversationContext.tsx line 200: banner text of the throw branch of
generateReport. -/
def reportFailErrorText : String := "Failed to generate report. Please try again."

/-- ConversationContext.tsx lines 151-171: the report instruction. -/
def reportPrompt : String :=
  "Based on the conversation history, generate a comprehensive mental health assessment report. Include:\n\n" ++
  "1. Observed behavioral patterns (list 3-5 key observations)\n" ++
  "2. Potential mental health conditions that may be present (if any)\n" ++
  "3. A mood score from 1-10 (10 being excellent mental health)\n" ++
  "4. A sentiment score from 1-10 (10 being very positive)\n" ++
  "5. 2-3 key quotes from the user that were significant\n" ++
  "6. 1-2 recommended therapy modules or approaches that might be beneficial\n\n" ++
  "Format your response as a valid JSON object with the following structure:\n" ++
  "\x7b\n  \"observedPatterns\": [\"pattern1\", \"pattern2\", ...],\n" ++
  "  \"tentativeConditions\": [\"condition1\", \"condition2\", ...],\n" ++
  "  \"moodScore\": number,\n  \"sentimentScore\": number,\n" ++
  "  \"keyQuotes\": [\"quote1\", \"quote2\", ...],\n" ++
  "  \"recommendations\": [\"recommendation1\", \"recommendation2\"],\n" ++
  "  \"analysisDate\": \"current date in ISO format\"\n\x7d\n\n" ++
  "IMPORTANT: Be compassionate but honest in your assessment. If there are no signs of mental health conditions, state that the user appears to be in good mental health. Don\x27t invent issues that aren\x27t supported by the conversation."

/-- ConversationContext.tsx line 96: sender-to-role mapping of the turn
list, `msg.sender === "user" ? "user" : "model"`. -/
def roleOf : Sender → Role
  | Sender.user => Role.user
  | Sender.bot => Role.model

/-- ConversationContext.tsx lines 95-98: one transcript message mapped to
a role-tagged turn, `(msg) => (\x7b role, content \x7d)`. -/
def turnOf (m : Message) : MessageInput :=
  { role := roleOf m.sender, content := m.content }

/-- ConversationContext.tsx lines 95-98 and 145-148: the transcript mapped
to role-tagged turns, order preserved. -/
def chatTurns (msgs : List Message) : List MessageInput :=
  msgs.map turnOf

/-- A user-authored Message as sendMessage creates it (lines 80-85). -/
def mkUserMsg (uuid ts content : String) : Message :=
  { id := uuid, content := content, sender := Sender.user, timestamp := ts }

/-- A bot-authored Message as the provider creates it. -/
def mkBotMsg (uuid ts content : String) : Message :=
  { id := uuid, content := content, sender := Sender.bot, timestamp := ts }

/-- ConversationContext.tsx lines 56-69, first half: the effect body runs
once (guarded by `conversationStarted`) and schedules the greeting
timeout. -/
def startEffect (s : ConvState) : ConvState :=
  if s.conversationStarted then s
  else { s with conversationStarted := true, greetingPending := true }

/-- ConversationContext.tsx lines 59-67, the timeout callback: when the
scheduled timer fires it executes `setMessages([initialMessage])`,
installing the one-element greeting list as the whole message state. -/
def fireGreeting (uuid ts : String) (s : ConvState) : ConvState :=
  if s.greetingPending then
    { s with messages := [{ id := uuid, content := greetingText,
                            sender := Sender.bot, timestamp := ts }],
             greetingPending := false }
  else s

/-- ConversationContext.tsx lines 92-107: the inference call issued by
sendMessage, when one is issued: the full transcript including the
just-appended user message, mapped to turns, paired with the chat system
prompt. -/
def sendMessageCall (uuidU tsU content : String) (s : ConvState) :
    Option (List MessageInput × String) :=
  if jsTrim content = "" then none
  else
    some (chatTurns (s.messages ++
            [{ id := uuidU, content := content, sender := Sender.user, timestamp := tsU }]),
          chatSystemPrompt)

/-- ConversationContext.tsx lines 75-137: sendMessage as a state
transformer.  `uuidU`/`tsU` and `uuidB`/`tsB` are the uuid and timestamp
drawn for the user and bot message; `outcome` is how the awaited
generateContentFromHF call settles. -/
def sendMessage (uuidU tsU uuidB tsB content : String) (outcome : HFOutcome)
    (s : ConvState) : ConvState :=
  if jsTrim content = "" then s
  else
    let userMessage : Message :=
      { id := uuidU, content := content, sender := Sender.user, timestamp := tsU }
    let s1 : ConvState :=
      { s with messages := s.messages ++ [userMessage], isLoading := true, error := none }
    match outcome with
    | HFOutcome.failure =>
        let errorMessage : Message :=
          { id := uuidB, content := apologyText, sender := Sender.bot, timestamp := tsB }
        { s1 with error := some retryErrorText,
                  messages := s1.messages ++ [errorMessage], isLoading := false }
    | HFOutcome.success data =>
        let conversationHistory := chatTurns (s.messages ++ [userMessage])
        let response := generateContentFromHF conversationHistory chatSystemPrompt data
        let s2 := if response = "" then s1
                  else { s1 with messages := s1.messages ++
                          [{ id := uuidB, content := response,
                             sender := Sender.bot, timestamp := tsB }] }
        { s2 with isLoading := false }

/-- ConversationContext.tsx lines 187-195 and 201-209: the degraded
placeholder Report installed on the failure branches. -/
def placeholderReport (ts : String) : Report :=
  { observedPatterns := ["Error generating comprehensive report"],
    tentativeConditions := [],
    moodScore := 5,
    sentimentScore := 5,
    keyQuotes := [],
    recommendations := ["Consider a general wellness check-in"],
    analysisDate := ts }

/-- ConversationContext.tsx lines 139-213: generateReport as a state
transformer.  `jsonParse` is the platform JSON.parse consumed at line 182:
the outer `none` means the parse throws (caught at line 184); `some v`
means it succeeds with value `v`, which line 183 stores with setReport as
it is — `v = some r` is a payload consumed as a Report, and `v = none` is
a successful parse of the non-object payload `null` (JSON.parse("null")
does not throw), in which case setReport(null) leaves the report slot
empty.  `ts` is the timestamp drawn for the placeholder; `outcome` is how
the awaited generateContentFromHF call settles. -/
def generateReport (jsonParse : String → Option (Option Report)) (ts : String)
    (outcome : HFOutcome) (s : ConvState) : ConvState :=
  let s1 : ConvState := { s with isReportGenerating := true, error := none }
  match outcome with
  | HFOutcome.failure =>
      { s1 with error := some reportFailErrorText,
                report := some (placeholderReport ts), isReportGenerating := false }
  | HFOutcome.success data =>
      let reportJson := generateContentFromHF (chatTurns s1.messages) reportPrompt data
      if reportJson = "" then { s1 with isReportGenerating := false }
      else
        match jsonParse reportJson with
        | some reportData =>
            { s1 with report := reportData, isReportGenerating := false }
        | none =>
            { s1 with error := some parseFailErrorText,
                      report := some (placeholderReport ts), isReportGenerating := false }

/-- ConversationContext.tsx lines 71-73: clearError sets the error banner
to absent and changes nothing else. -/
def clearError (s : ConvState) : ConvState := { s with error := none }

/-- The operations of claim C2 (initial greeting, sendMessage success,
sendMessage failure), with the effect body that schedules the greeting. -/
inductive Op where
  | start
  | greet (uuid ts : String)
  | send (uuidU tsU uuidB tsB content : String) (outcome : HFOutcome)

/-- Apply one operation to the provider state. -/
def applyOp : Op → ConvState → ConvState
  | Op.start, s => startEffect s
  | Op.greet uuid ts, s => fireGreeting uuid ts s
  | Op.send uuidU tsU uuidB tsB content outcome, s =>
      sendMessage uuidU tsU uuidB tsB content outcome s

/-- Run a sequence of operations from a state. -/
def runOps (ops : List Op) (s : ConvState) : ConvState :=
  ops.foldl (fun st op => applyOp op st) s

/-- ConversationContext.tsx lines 219-228: the part of the formatted
report document before the conditional section.  `fmt` models
`new Date(x).toLocaleString()`. -/
def reportTop (fmt : String → String) (r : Report) : String :=
  "\nMental Health Assessment Report\nGenerated on: " ++ fmt r.analysisDate ++
  "\n\nMood Score: " ++ toString r.moodScore ++ "/10\nSentiment Score: " ++
  toString r.sentimentScore ++ "/10\n\nObserved Patterns:\n" ++
  String.intercalate "\n" (r.observedPatterns.map fun pattern => "- " ++ pattern) ++ "\n\n"

/-- ConversationContext.tsx lines 229-235: the conditionally included
"Potential Conditions" section. -/
def condSegment (r : Report) : String :=
  if r.tentativeConditions.length > 0 then
    "\nPotential Conditions:\n" ++
    String.intercalate "\n" (r.tentativeConditions.map fun condition => "- " ++ condition)
  else ""

/-- ConversationContext.tsx lines 236-242: the part of the formatted
report document after the conditional section. -/
def reportBottom (r : Report) : String :=
  "\n\nKey Quotes:\n" ++
  String.intercalate "\n" (r.keyQuotes.map fun quote => "- \"" ++ quote ++ "\"") ++
  "\n\nRecommendations:\n" ++
  String.intercalate "\n" (r.recommendations.map fun rec => "- " ++ rec) ++ "\n    "

/-- ConversationContext.tsx lines 219-242: the full formatted report
document handed to the download collaborator. -/
def reportContent (fmt : String → String) (r : Report) : String :=
  jsTrim (reportTop fmt r ++ condSegment r ++ reportBottom r)

/-- A report text the backend can return: a syntactically valid JSON
report whose moodScore is 42. -/
def sampleReportJson : String :=
  "\x7b\"observedPatterns\":[],\"tentativeConditions\":[],\"moodScore\":42,\"sentimentScore\":5,\"keyQuotes\":[],\"recommendations\":[],\"analysisDate\":\"2026-01-01\"\x7d"

/-- The payload JSON.parse yields on `sampleReportJson`. -/
def sampleReport42 : Report :=
  { observedPatterns := [], tentativeConditions := [], moodScore := 42,
    sentimentScore := 5, keyQuotes := [], recommendations := [],
    analysisDate := "2026-01-01" }

/-- A concrete parse capability agreeing with the platform JSON.parse on
`sampleReportJson` (it parses that text to its payload). -/
def parse42 : String → Option (Option Report) :=
  fun str => if str = sampleReportJson then some (some sampleReport42) else none

/-- A concrete parse capability agreeing with the platform JSON.parse on
the backend text "null": JSON.parse("null") succeeds and returns null. -/
def parseNull : String → Option (Option Report) :=
  fun str => if str = "null" then some none else none

/-- A reachable state that already holds a Report: a generateReport call
whose backend call threw, followed by clearError. -/
def stateWithReport : ConvState :=
  clearError (generateReport (fun _ => none) "t0" HFOutcome.failure initState)

/-- A concrete report with no tentative conditions. -/
def rEmptyCond : Report :=
  { observedPatterns := ["p1"], tentativeConditions := [], moodScore := 5,
    sentimentScore := 6, keyQuotes := ["q"], recommendations := ["r"],
    analysisDate := "d" }

/-- A concrete report with one tentative condition. -/
def rWithCond : Report :=
  { rEmptyCond with tentativeConditions := ["Mild anxiety"] }

/-! Helper lemmas. -/

theorem hfCleanup_ne (p g : String) : hfCleanup p g ≠ "" := by
  unfold hfCleanup
  dsimp only
  split <;> split
  all_goals first | assumption | simp

theorem hfPost_ne (p : String) (d : HFData) : hfPost p d ≠ "" := by
  unfold hfPost
  cases extractGeneratedText d with
  | none => intro h; simp at h
  | some g0 => exact hfCleanup_ne p g0

theorem generateContentFromHF_ne (m : List MessageInput) (sp : String) (d : HFData) :
    generateContentFromHF m sp d ≠ "" :=
  hfPost_ne (hfPrompt m sp) d

theorem data_append (a b : String) : (a ++ b).data = a.data ++ b.data :=
  String.data_append a b

theorem infix_pad_left {α : Type} (u : List α) {t m : List α} (h : t <:+: m) :
    t <:+: u ++ m := by
  obtain ⟨x, y, rfl⟩ := h
  exact ⟨u ++ x, y, by simp⟩

theorem infix_pad_right {α : Type} (v : List α) {t m : List α} (h : t <:+: m) :
    t <:+: m ++ v := by
  obtain ⟨x, y, rfl⟩ := h
  exact ⟨x, y ++ v, by simp⟩

theorem infix_data_left (a b : String) : a.data <:+: (a ++ b).data := by
  rw [data_append]
  exact infix_pad_right b.data ⟨[], [], by simp⟩

theorem infix_data_right (a b : String) : b.data <:+: (a ++ b).data := by
  rw [data_append]
  exact infix_pad_left a.data ⟨[], [], by simp⟩

theorem infix_dropWhile_head {α : Type} {p : α → Bool} {c : α} {t l : List α}
    (hc : p c = false) (h : (c :: t) <:+: l) : (c :: t) <:+: l.dropWhile p := by
  obtain ⟨u, v, rfl⟩ := h
  induction u with
  | nil =>
      simp only [List.nil_append, List.cons_append, List.dropWhile_cons, hc,
        Bool.false_eq_true, if_false]
      exact ⟨[], v, by simp⟩
  | cons a u' ih =>
      have hsplit : (a :: u') ++ (c :: t) ++ v = a :: (u' ++ (c :: t) ++ v) := by simp
      rw [hsplit, List.dropWhile_cons]
      cases hpa : p a with
      | true => simpa using ih
      | false =>
          simp only [Bool.false_eq_true, if_false]
          exact ⟨a :: u', v, by simp⟩

theorem infix_trimChars {t l : List Char} (c1 c2 : Char) (h1 : t.head? = some c1)
    (hw1 : c1.isWhitespace = false) (h2 : t.getLast? = some c2)
    (hw2 : c2.isWhitespace = false) (h : t <:+: l) : t <:+: trimChars l := by
  unfold trimChars
  cases t with
  | nil => simp at h1
  | cons a t' =>
      rw [List.head?_cons, Option.some_inj] at h1
      subst h1
      have step1 : (a :: t') <:+: l.dropWhile Char.isWhitespace :=
        infix_dropWhile_head hw1 h
      have step2 : (a :: t').reverse <:+: (l.dropWhile Char.isWhitespace).reverse :=
        List.reverse_infix.mpr step1
      have hrev : (a :: t').reverse.head? = some c2 := by
        rw [List.head?_reverse]
        exact h2
      obtain ⟨rt, hrt⟩ : ∃ rt, (a :: t').reverse = c2 :: rt := by
        cases hx : (a :: t').reverse with
        | nil => rw [hx] at hrev; simp at hrev
        | cons b rb =>
            rw [hx, List.head?_cons, Option.some_inj] at hrev
            exact ⟨rb, by rw [hrev]⟩
      rw [hrt] at step2
      have step3 : (c2 :: rt) <:+:
          ((l.dropWhile Char.isWhitespace).reverse).dropWhile Char.isWhitespace :=
        infix_dropWhile_head hw2 step2
      rw [← hrt] at step3
      have step4 := List.reverse_infix.mpr step3
      rwa [List.reverse_reverse] at step4

theorem append_empty_str (a : String) : a ++ "" = a := by
  cases a with
  | mk l => show String.mk (l ++ []) = String.mk l; rw [List.append_nil]

theorem infix_data_trans_left {lit a : String} (b : String)
    (h : lit.data <:+: a.data) : lit.data <:+: (a ++ b).data :=
  h.trans (infix_data_left a b)

theorem infix_data_trans_right (a : String) {lit b : String}
    (h : lit.data <:+: b.data) : lit.data <:+: (a ++ b).data :=
  h.trans (infix_data_right a b)

theorem jsTrim_data (s : String) : (jsTrim s).data = trimChars s.data := rfl

theorem reportContent_eq (fmt : String → String) (r : Report) :
    reportContent fmt r = jsTrim (reportTop fmt r ++ condSegment r ++ reportBottom r) := rfl

/-! Claim theorems. -/

/-- C8: for every input text whose trimmed form is empty, sendMessage is a
no-op: the whole provider state, transcript and isLoading included, is
unchanged. -/
theorem c8_blank_input_noop (uuidU tsU uuidB tsB content : String)
    (outcome : HFOutcome) (s : ConvState) (h : jsTrim content = "") :
    sendMessage uuidU tsU uuidB tsB content outcome s = s := by
  unfold sendMessage
  rw [if_pos h]

/-- C8 witness: sendMessage on a whitespace-only input leaves the initial
state untouched. -/
theorem c8_blank_input_noop_witness :
    sendMessage "u1" "t1" "b1" "t2" "   " HFOutcome.failure initState = initState :=
  c8_blank_input_noop "u1" "t1" "b1" "t2" "   " HFOutcome.failure initState (by decide)

/-- C5: for every input with non-empty trimmed form, sendMessage issues
its inference call on the transcript already containing the appended user
message, and the settled transcript is the old one plus exactly one user
message and exactly one bot message, on the success and the failure path
alike. -/
theorem c5_appends_exactly_user_and_bot (uuidU tsU uuidB tsB content : String)
    (outcome : HFOutcome) (s : ConvState) (h : jsTrim content ≠ "") :
    sendMessageCall uuidU tsU content s
      = some (chatTurns (s.messages ++ [mkUserMsg uuidU tsU content]), chatSystemPrompt)
    ∧ ∃ bm : Message,
        (sendMessage uuidU tsU uuidB tsB content outcome s).messages
          = s.messages ++ [mkUserMsg uuidU tsU content, bm]
        ∧ bm.sender = Sender.bot := by
  constructor
  · unfold sendMessageCall
    rw [if_neg h]
    rfl
  · unfold sendMessage
    rw [if_neg h]
    cases outcome with
    | failure =>
        dsimp only
        refine ⟨mkBotMsg uuidB tsB apologyText, ?_, rfl⟩
        simp [mkUserMsg, mkBotMsg, apologyText]
    | success data =>
        dsimp only
        rw [if_neg (generateContentFromHF_ne _ _ _)]
        refine ⟨mkBotMsg uuidB tsB
          (generateContentFromHF (chatTurns (s.messages ++ [mkUserMsg uuidU tsU content]))
            chatSystemPrompt data), ?_, rfl⟩
        simp [mkUserMsg, mkBotMsg]

/-- C5 witness: a concrete non-empty input on the failure path appends one
user message and one bot message. -/
theorem c5_appends_exactly_user_and_bot_witness :
    sendMessageCall "u1" "t1" "hello" initState
      = some (chatTurns (initState.messages ++ [mkUserMsg "u1" "t1" "hello"]),
          chatSystemPrompt)
    ∧ ∃ bm : Message,
        (sendMessage "u1" "t1" "b1" "t2" "hello" HFOutcome.failure initState).messages
          = initState.messages ++ [mkUserMsg "u1" "t1" "hello", bm]
        ∧ bm.sender = Sender.bot :=
  c5_appends_exactly_user_and_bot "u1" "t1" "b1" "t2" "hello" HFOutcome.failure
    initState (by decide)

/-- C6: when the inference call fails, sendMessage sets the error banner
to the generic retry message and appends the bot apology; and for every
outcome, isLoading is false after settlement. -/
theorem c6_failure_sets_error_and_apology (uuidU tsU uuidB tsB content : String)
    (outcome : HFOutcome) (s : ConvState) (h : jsTrim content ≠ "") :
    (sendMessage uuidU tsU uuidB tsB content HFOutcome.failure s).error
        = some retryErrorText
    ∧ retryErrorText ≠ ""
    ∧ (sendMessage uuidU tsU uuidB tsB content HFOutcome.failure s).messages
        = s.messages ++ [mkUserMsg uuidU tsU content, mkBotMsg uuidB tsB apologyText]
    ∧ (sendMessage uuidU tsU uuidB tsB content outcome s).isLoading = false := by
  refine ⟨?_, by decide, ?_, ?_⟩
  · unfold sendMessage
    rw [if_neg h]
  · unfold sendMessage
    rw [if_neg h]
    dsimp only
    simp [mkUserMsg, mkBotMsg]
  · unfold sendMessage
    rw [if_neg h]
    cases outcome <;> rfl

/-- C6 witness: a concrete failing call shows the banner, the apology
message and the cleared loading flag. -/
theorem c6_failure_sets_error_and_apology_witness :
    (sendMessage "u1" "t1" "b1" "t2" "hello" HFOutcome.failure initState).error
        = some retryErrorText
    ∧ retryErrorText ≠ ""
    ∧ (sendMessage "u1" "t1" "b1" "t2" "hello" HFOutcome.failure initState).messages
        = initState.messages ++ [mkUserMsg "u1" "t1" "hello", mkBotMsg "b1" "t2" apologyText]
    ∧ (sendMessage "u1" "t1" "b1" "t2" "hello" HFOutcome.failure initState).isLoading
        = false :=
  c6_failure_sets_error_and_apology "u1" "t1" "b1" "t2" "hello" HFOutcome.failure
    initState (by decide)

/-- C1: the turn list handed to the inference client by sendMessage is the
whole current transcript including the just-appended user message, mapped
one turn per message in order, user sender to user role and bot sender to
model role, with each turn carrying the message content. -/
theorem c1_full_history_passed (uuidU tsU content : String) (s : ConvState)
    (h : jsTrim content ≠ "") :
    sendMessageCall uuidU tsU content s
      = some (chatTurns (s.messages ++ [mkUserMsg uuidU tsU content]), chatSystemPrompt)
    ∧ (chatTurns (s.messages ++ [mkUserMsg uuidU tsU content])).length
        = (s.messages ++ [mkUserMsg uuidU tsU content]).length
    ∧ (∀ i : Nat,
        (chatTurns (s.messages ++ [mkUserMsg uuidU tsU content]))[i]?
          = ((s.messages ++ [mkUserMsg uuidU tsU content])[i]?).map turnOf)
    ∧ (∀ m : Message, (turnOf m).content = m.content)
    ∧ roleOf Sender.user = Role.user
    ∧ roleOf Sender.bot = Role.model := by
  refine ⟨?_, ?_, ?_, fun m => rfl, rfl, rfl⟩
  · unfold sendMessageCall
    rw [if_neg h]
    rfl
  · unfold chatTurns
    rw [List.length_map]
  · intro i
    unfold chatTurns
    rw [List.getElem?_map]

/-- C1 witness: the call issued for a concrete transcript and input. -/
theorem c1_full_history_passed_witness :
    sendMessageCall "u1" "t1" "hello" initState
      = some (chatTurns (initState.messages ++ [mkUserMsg "u1" "t1" "hello"]),
          chatSystemPrompt) :=
  (c1_full_history_passed "u1" "t1" "hello" initState (by decide)).1

/-- C3 counterexample: from a reachable state that already holds a
Report, a generateReport call whose backend returns the text "null"
settles with the report slot absent: JSON.parse("null") succeeds with
null and setReport(null) is executed, so currentReport is not non-absent
after settlement. -/
theorem c3_report_installed_counterexample :
    (stateWithReport.report).isSome = true
    ∧ (generateReport parseNull "ts"
        (HFOutcome.success (HFData.jsonObject (some "null"))) stateWithReport).report
      = none := by
  constructor
  · decide
  · decide

/-- C3 amended: after a settled generateReport call, a Report is
installed, unless the backend call succeeded and its text parsed
successfully to the non-object value null — then setReport(null) leaves
the slot empty.  The throw path, the parse-throw path and parse success
with a report payload all install a Report. -/
theorem c3_report_installed_amended (jsonParse : String → Option (Option Report))
    (ts : String) (outcome : HFOutcome) (s : ConvState)
    (h : ∀ data, outcome = HFOutcome.success data →
        jsonParse (generateContentFromHF (chatTurns s.messages) reportPrompt data)
          ≠ some none) :
    ((generateReport jsonParse ts outcome s).report).isSome = true := by
  cases outcome with
  | failure => rfl
  | success data =>
      have hd := h data rfl
      unfold generateReport
      dsimp only
      rw [if_neg (generateContentFromHF_ne _ _ _)]
      cases hj : jsonParse (generateContentFromHF (chatTurns s.messages) reportPrompt data) with
      | none => rfl
      | some v =>
          cases v with
          | none => exact absurd hj hd
          | some r => rfl

/-- C3 amended witness: a settled call whose backend threw installs the
placeholder Report. -/
theorem c3_report_installed_amended_witness :
    ((generateReport (fun _ => none) "ts" HFOutcome.failure initState).report).isSome
      = true :=
  c3_report_installed_amended (fun _ => none) "ts" HFOutcome.failure initState
    (fun _ hd => HFOutcome.noConfusion hd)

/-- C4 counterexample: on the parse-success path the code installs the
parsed payload without validation, so a backend text whose JSON carries
moodScore 42 leads to an installed Report with moodScore outside 1..10. -/
theorem c4_scores_in_range_counterexample :
    (generateReport parse42 "2026-01-01T00:00:00.000Z"
        (HFOutcome.success (HFData.jsonObject (some sampleReportJson))) initState).report
      = some sampleReport42
    ∧ ¬(1 ≤ sampleReport42.moodScore ∧ sampleReport42.moodScore ≤ 10) := by
  constructor
  · decide
  · decide

/-- C4 amended: the degraded placeholder carries moodScore 5 and
sentimentScore 5, both in 1..10; on the parse-success path the installed
Report is exactly the parsed payload, with no range guarantee on its
scores. -/
theorem c4_scores_amended (jsonParse : String → Option (Option Report)) (ts : String)
    (s : ConvState) (data : HFData) (r : Report)
    (hp : jsonParse (generateContentFromHF (chatTurns s.messages) reportPrompt data)
        = some (some r)) :
    (generateReport jsonParse ts (HFOutcome.success data) s).report = some r
    ∧ (generateReport jsonParse ts HFOutcome.failure s).report
        = some (placeholderReport ts)
    ∧ (placeholderReport ts).moodScore = 5
    ∧ (placeholderReport ts).sentimentScore = 5
    ∧ 1 ≤ (placeholderReport ts).moodScore ∧ (placeholderReport ts).moodScore ≤ 10
    ∧ 1 ≤ (placeholderReport ts).sentimentScore
    ∧ (placeholderReport ts).sentimentScore ≤ 10 := by
  refine ⟨?_, rfl, rfl, rfl, (by decide : (1:Int) ≤ 5), (by decide : (5:Int) ≤ 10),
    (by decide : (1:Int) ≤ 5), (by decide : (5:Int) ≤ 10)⟩
  unfold generateReport
  dsimp only
  rw [if_neg (generateContentFromHF_ne _ _ _), hp]

/-- C4 amended witness: the parse-success path installs the parsed payload
verbatim. -/
theorem c4_scores_amended_witness :
    (generateReport parse42 "ts"
        (HFOutcome.success (HFData.jsonObject (some sampleReportJson))) initState).report
      = some sampleReport42 :=
  (c4_scores_amended parse42 "ts" initState (HFData.jsonObject (some sampleReportJson))
    sampleReport42 (by decide)).1

/-- C7: on both failure paths of generateReport (backend throw, parse
failure) the installed Report is the fixed degraded placeholder: scores 5,
empty keyQuotes and tentativeConditions, and exactly one generic fallback
recommendation. -/
theorem c7_failure_installs_placeholder (jsonParse : String → Option (Option Report))
    (ts : String) (s : ConvState) (data : HFData)
    (hp : jsonParse (generateContentFromHF (chatTurns s.messages) reportPrompt data)
        = none) :
    (generateReport jsonParse ts HFOutcome.failure s).report
        = some (placeholderReport ts)
    ∧ (generateReport jsonParse ts (HFOutcome.success data) s).report
        = some (placeholderReport ts)
    ∧ (placeholderReport ts).moodScore = 5
    ∧ (placeholderReport ts).sentimentScore = 5
    ∧ (placeholderReport ts).keyQuotes = []
    ∧ (placeholderReport ts).tentativeConditions = []
    ∧ (placeholderReport ts).recommendations
        = ["Consider a general wellness check-in"] := by
  refine ⟨rfl, ?_, rfl, rfl, rfl, rfl, rfl⟩
  unfold generateReport
  dsimp only
  rw [if_neg (generateContentFromHF_ne _ _ _), hp]

/-- C7 witness: a concrete parse failure installs the placeholder. -/
theorem c7_failure_installs_placeholder_witness :
    (generateReport (fun _ => none) "ts"
        (HFOutcome.success (HFData.jsonObject (some "x"))) initState).report
      = some (placeholderReport "ts") :=
  (c7_failure_installs_placeholder (fun _ => none) "ts" initState
    (HFData.jsonObject (some "x")) rfl).2.1

/-- C10: the request the HuggingFace adapter sends is a function of the
content of the last user-role turn alone: two calls agreeing on that
content produce identical requests, whatever the other turns and whatever
the systemPrompt arguments. -/
theorem c10_request_depends_only_on_last_user_turn (m1 m2 : List MessageInput)
    (sp1 sp2 : String) (c : String)
    (h1 : lastUserContent m1 = some c) (h2 : lastUserContent m2 = some c) :
    hfRequest m1 sp1 = hfRequest m2 sp2 := by
  unfold hfRequest hfPrompt
  rw [h1, h2]

/-- C10 witness: a one-turn history and a three-turn history with the same
last user content, under different system prompts, yield the same
request. -/
theorem c10_request_depends_only_on_last_user_turn_witness :
    hfRequest [{ role := Role.user, content := "hi" }] "system one"
      = hfRequest
          [{ role := Role.model, content := "a" },
           { role := Role.user, content := "hi" },
           { role := Role.model, content := "b" }] "system two" :=
  c10_request_depends_only_on_last_user_turn _ _ "system one" "system two" "hi"
    (by decide) (by decide)

/-- C2 counterexample: from the reachable state in which the start effect
has scheduled the greeting and a sendMessage has already appended two
messages, the greeting timer replaces the transcript with the one-element
greeting list, so the prior messages are not preserved as a prefix. -/
theorem c2_append_only_counterexample :
    ¬ ∃ t : List Message,
      (applyOp (Op.greet "g1" "t3")
        (runOps [Op.start, Op.send "u1" "t1" "b1" "t2" "hello" HFOutcome.failure]
          initState)).messages
      = (runOps [Op.start, Op.send "u1" "t1" "b1" "t2" "hello" HFOutcome.failure]
          initState).messages ++ t := by
  intro hex
  obtain ⟨t, ht⟩ := hex
  have h1 : (runOps [Op.start, Op.send "u1" "t1" "b1" "t2" "hello" HFOutcome.failure]
      initState).messages
      = [mkUserMsg "u1" "t1" "hello", mkBotMsg "b1" "t2" apologyText] := by decide
  have h2 : (applyOp (Op.greet "g1" "t3")
      (runOps [Op.start, Op.send "u1" "t1" "b1" "t2" "hello" HFOutcome.failure]
        initState)).messages
      = [mkBotMsg "g1" "t3" greetingText] := by decide
  rw [h1, h2] at ht
  simp [mkUserMsg, mkBotMsg] at ht

/-- C2 amended: sendMessage (success and failure) and the start effect
only append to the transcript, and the greeting timer appends provided the
transcript is still empty when it fires; with a non-empty transcript the
greeting replaces it instead. -/
theorem c2_append_only_amended (op : Op) (s : ConvState)
    (h : ∀ uuid ts, op = Op.greet uuid ts → s.messages = []) :
    ∃ t : List Message, (applyOp op s).messages = s.messages ++ t := by
  cases op with
  | start =>
      refine ⟨[], ?_⟩
      show (startEffect s).messages = s.messages ++ []
      unfold startEffect
      split <;> simp
  | greet uuid ts =>
      have hm := h uuid ts rfl
      show ∃ t : List Message, (fireGreeting uuid ts s).messages = s.messages ++ t
      unfold fireGreeting
      split
      · exact ⟨[{ id := uuid, content := greetingText,
                  sender := Sender.bot, timestamp := ts }], by rw [hm]; rfl⟩
      · exact ⟨[], by simp⟩
  | send uuidU tsU uuidB tsB content outcome =>
      show ∃ t : List Message,
        (sendMessage uuidU tsU uuidB tsB content outcome s).messages = s.messages ++ t
      unfold sendMessage
      split
      · exact ⟨[], by simp⟩
      · cases outcome with
        | failure =>
            exact ⟨[mkUserMsg uuidU tsU content, mkBotMsg uuidB tsB apologyText],
              by simp [mkUserMsg, mkBotMsg]⟩
        | success data =>
            dsimp only
            split
            · exact ⟨[mkUserMsg uuidU tsU content], by simp [mkUserMsg]⟩
            · refine ⟨[mkUserMsg uuidU tsU content,
                mkBotMsg uuidB tsB (generateContentFromHF
                  (chatTurns (s.messages ++ [mkUserMsg uuidU tsU content]))
                  chatSystemPrompt data)], ?_⟩
              simp [mkUserMsg, mkBotMsg]
  
/-- C2 amended witness: a concrete sendMessage only appends. -/
theorem c2_append_only_amended_witness :
    ∃ t : List Message,
      (applyOp (Op.send "u1" "t1" "b1" "t2" "hello" HFOutcome.failure) initState).messages
        = initState.messages ++ t :=
  c2_append_only_amended (Op.send "u1" "t1" "b1" "t2" "hello" HFOutcome.failure)
    initState (fun _ _ hEq => Op.noConfusion hEq)

/-- C9: the formatted report document includes the "Potential Conditions"
section exactly when tentativeConditions is non-empty (with an empty list
the document equals the one assembled without that section), while the
header, the timestamp line, the two score lines, Observed Patterns, Key
Quotes and Recommendations sections are present for every report. -/
theorem c9_report_document_sections (fmt : String → String) (r : Report) :
    (r.tentativeConditions = [] →
        reportContent fmt r = jsTrim (reportTop fmt r ++ reportBottom r))
    ∧ (r.tentativeConditions ≠ [] →
        "Potential Conditions:".data <:+: (reportContent fmt r).data)
    ∧ "Mental Health Assessment Report".data <:+: (reportContent fmt r).data
    ∧ "Generated on:".data <:+: (reportContent fmt r).data
    ∧ "Mood Score:".data <:+: (reportContent fmt r).data
    ∧ "Sentiment Score:".data <:+: (reportContent fmt r).data
    ∧ "Observed Patterns:".data <:+: (reportContent fmt r).data
    ∧ "Key Quotes:".data <:+: (reportContent fmt r).data
    ∧ "Recommendations:".data <:+: (reportContent fmt r).data := by
  have lift : ∀ (lit : String) (c1 c2 : Char), lit.data.head? = some c1 →
      c1.isWhitespace = false → lit.data.getLast? = some c2 →
      c2.isWhitespace = false →
      lit.data <:+: (reportTop fmt r ++ condSegment r ++ reportBottom r).data →
      lit.data <:+: (reportContent fmt r).data := by
    intro lit c1 c2 h1 hw1 h2 hw2 hin
    rw [reportContent_eq, jsTrim_data]
    exact infix_trimChars c1 c2 h1 hw1 h2 hw2 hin
  have liftTop : ∀ lit : String, lit.data <:+: (reportTop fmt r).data →
      lit.data <:+: (reportTop fmt r ++ condSegment r ++ reportBottom r).data := by
    intro lit hl
    exact infix_data_trans_left _ (infix_data_trans_left _ hl)
  have liftBot : ∀ lit : String, lit.data <:+: (reportBottom r).data →
      lit.data <:+: (reportTop fmt r ++ condSegment r ++ reportBottom r).data := by
    intro lit hl
    exact infix_data_trans_right _ hl
  have tHeader : "Mental Health Assessment Report".data <:+: (reportTop fmt r).data := by
    unfold reportTop
    apply infix_data_trans_left
    apply infix_data_trans_left
    apply infix_data_trans_left
    apply infix_data_trans_left
    apply infix_data_trans_left
    apply infix_data_trans_left
    apply infix_data_trans_left
    apply infix_data_trans_left
    exact ⟨"\n".data, "\nGenerated on: ".data, by decide⟩
  have tGenerated : "Generated on:".data <:+: (reportTop fmt r).data := by
    unfold reportTop
    apply infix_data_trans_left
    apply infix_data_trans_left
    apply infix_data_trans_left
    apply infix_data_trans_left
    apply infix_data_trans_left
    apply infix_data_trans_left
    apply infix_data_trans_left
    apply infix_data_trans_left
    exact ⟨"\nMental Health Assessment Report\n".data, " ".data, by decide⟩
  have tMood : "Mood Score:".data <:+: (reportTop fmt r).data := by
    unfold reportTop
    apply infix_data_trans_left
    apply infix_data_trans_left
    apply infix_data_trans_left
    apply infix_data_trans_left
    apply infix_data_trans_left
    apply infix_data_trans_left
    apply infix_data_trans_right
    exact ⟨"\n\n".data, " ".data, by decide⟩
  have tSentiment : "Sentiment Score:".data <:+: (reportTop fmt r).data := by
    unfold reportTop
    apply infix_data_trans_left
    apply infix_data_trans_left
    apply infix_data_trans_left
    apply infix_data_trans_left
    apply infix_data_trans_right
    exact ⟨"/10\n".data, " ".data, by decide⟩
  have tObserved : "Observed Patterns:".data <:+: (reportTop fmt r).data := by
    unfold reportTop
    apply infix_data_trans_left
    apply infix_data_trans_left
    apply infix_data_trans_right
    exact ⟨"/10\n\n".data, "\n".data, by decide⟩
  have tQuotes : "Key Quotes:".data <:+: (reportBottom r).data := by
    unfold reportBottom
    apply infix_data_trans_left
    apply infix_data_trans_left
    apply infix_data_trans_left
    apply infix_data_trans_left
    exact ⟨"\n\n".data, "\n".data, by decide⟩
  have tRecs : "Recommendations:".data <:+: (reportBottom r).data := by
    unfold reportBottom
    apply infix_data_trans_left
    apply infix_data_trans_left
    apply infix_data_trans_right
    exact ⟨"\n\n".data, "\n".data, by decide⟩
  refine ⟨?_, ?_,
    lift _ 'M' 't' (by decide) (by decide) (by decide) (by decide) (liftTop _ tHeader),
    lift _ 'G' ':' (by decide) (by decide) (by decide) (by decide) (liftTop _ tGenerated),
    lift _ 'M' ':' (by decide) (by decide) (by decide) (by decide) (liftTop _ tMood),
    lift _ 'S' ':' (by decide) (by decide) (by decide) (by decide) (liftTop _ tSentiment),
    lift _ 'O' ':' (by decide) (by decide) (by decide) (by decide) (liftTop _ tObserved),
    lift _ 'K' ':' (by decide) (by decide) (by decide) (by decide) (liftBot _ tQuotes),
    lift _ 'R' ':' (by decide) (by decide) (by decide) (by decide) (liftBot _ tRecs)⟩
  · intro hnil
    have hcond : condSegment r = "" := by
      unfold condSegment
      rw [hnil]
      rfl
    unfold reportContent
    rw [hcond, append_empty_str]
  · intro hne
    have hcond : condSegment r = "\nPotential Conditions:\n" ++
        String.intercalate "\n" (r.tentativeConditions.map fun condition => "- " ++ condition) := by
      unfold condSegment
      rw [if_pos (List.length_pos.mpr hne)]
    apply lift _ 'P' ':' (by decide) (by decide) (by decide) (by decide)
    rw [hcond]
    apply infix_data_trans_left
    apply infix_data_trans_right
    apply infix_data_trans_left
    exact ⟨"\n".data, "\n".data, by decide⟩

/-- C9 witness: with no tentative conditions the document is the one
without the section; with one tentative condition the section is
present. -/
theorem c9_report_document_sections_witness :
    reportContent (fun x => x) rEmptyCond
        = jsTrim (reportTop (fun x => x) rEmptyCond ++ reportBottom rEmptyCond)
    ∧ "Potential Conditions:".data <:+: (reportContent (fun x => x) rWithCond).data :=
  ⟨(c9_report_document_sections (fun x => x) rEmptyCond).1 rfl,
   (c9_report_document_sections (fun x => x) rWithCond).2.1 (by decide)⟩

end MHC
